import Mathlib

/-!
Verification of the playwright QA service against its specification.

The definitions below are a shallow embedding of the JavaScript sources:
  - `linkChecker` (src/unnamed/part_004, first document): `isCheckableLink`,
    `isSocialMediaLink`, `checkPageLinks`, `checkMultiplePages`;
  - `server.js` (second document, the orchestrator): the admission guards of
    `POST /start-qa` and `POST /rerun`, their background tasks, and
    `GET /job-status`.
External collaborators (the browser renderer, axios HTTP probes, the URL
constructor, the supabase store) are modelled as oracle parameters; machine
behaviour that the source relies on (JS truthiness, `String.prototype.includes`
substring search, `||` defaulting) is embedded explicitly.
-/

set_option maxHeartbeats 1000000

namespace PlaywrightQa

/-! ### JavaScript value helpers

`Option String` stands for a JS string field that may be `undefined`/missing;
`none` and `some ""` are both falsy, mirroring `if (!x)` checks and `a || b`
defaulting in the source. -/

/-- JS truthiness of an optional string: `undefined` and `""` are falsy. -/
def truthyStr : Option String → Option String
  | none => none
  | some s => if s = "" then none else some s

/-- JS `a || b` on optional strings. -/
def jsOr (a b : Option String) : Option String :=
  match truthyStr a with
  | some s => some s
  | none => b

/-- JS `a || b || d` where `d` is a plain string default. -/
def jsOrD (a b : Option String) (d : String) : String :=
  match truthyStr (jsOr a b) with
  | some s => s
  | none => d

/-- Substring search on character lists (JS `String.prototype.includes`). -/
def listIncludes (sub : List Char) : List Char → Bool
  | [] => sub.isEmpty
  | c :: cs => sub.isPrefixOf (c :: cs) || listIncludes sub cs

/-- JS `s.includes(sub)`: substring containment. -/
def jsIncludes (s sub : String) : Bool := listIncludes sub.data s.data

/-- JS `s.toLowerCase()`, written over the character list so that concrete
instances evaluate. -/
def strLower (s : String) : String := ⟨s.data.map Char.toLower⟩

/-- JS `s.startsWith(pre)`. -/
def strStartsWith (s pre : String) : Bool := pre.data.isPrefixOf s.data

/-- JS `s.endsWith(suf)`. -/
def strEndsWith (s suf : String) : Bool := suf.data.isSuffixOf s.data

/-- JS `str.replace(/\/+$/, '')`: strip every trailing slash
(server.js URL matching normalisation). -/
def stripTrailingSlashes (s : String) : String :=
  ⟨(s.data.reverse.dropWhile (fun c => c = '/')).reverse⟩

/-! ### Link Auditor: `isCheckableLink` (part_004 lines 10 to 47) -/

/-- The protocol prefixes skipped by the auditor (part_004 lines 13 to 29). -/
def skipProtocols : List String :=
  ["tel:", "mailto:", "javascript:", "data:", "blob:", "file:", "ftp:",
   "sms:", "whatsapp:", "viber:", "skype:", "facetime:", "maps:", "geo:"]

/-- Source `isCheckableLink(href)`: `href` falsy returns false; any skip
protocol prefix (on the lowercased href) returns false; a leading `#`
returns false; otherwise checkable iff the lowercased href starts with
`http://` or `https://`. -/
def isCheckableLink (href : String) : Bool :=
  if href = "" then false
  else
    let lowerHref := strLower href
    if skipProtocols.any (fun p => strStartsWith lowerHref p) then false
    else if strStartsWith href "#" then false
    else strStartsWith lowerHref "http://" || strStartsWith lowerHref "https://"

/-! ### Link Auditor: `isSocialMediaLink` (part_004 lines 55 to 96) -/

/-- The fixed social/media denylist of the source, in its order. -/
def socialMediaDomains : List String :=
  ["instagram.com", "www.instagram.com", "facebook.com", "www.facebook.com",
   "fb.com", "twitter.com", "www.twitter.com", "x.com", "www.x.com",
   "linkedin.com", "www.linkedin.com", "tiktok.com", "www.tiktok.com",
   "pinterest.com", "www.pinterest.com", "snapchat.com", "www.snapchat.com",
   "youtube.com", "www.youtube.com", "youtu.be", "reddit.com",
   "www.reddit.com", "tumblr.com", "www.tumblr.com", "discord.com",
   "discord.gg", "threads.net", "www.threads.net"]

/-- Result of the platform URL constructor `new URL(href)`: the fields the
source reads. `origin` is scheme+host+port, `hostname` the host. -/
structure UrlParts where
  origin : String
  hostname : String
deriving DecidableEq

/-- The URL constructor is an external collaborator: an oracle from href
strings to parsed parts, `none` meaning the constructor throws. -/
abbrev UrlParse : Type := String → Option UrlParts

/-- Source `isSocialMediaLink(href)`: false on falsy href; parse the URL
(`catch` returns false); the lowercased hostname must equal a denylisted
domain or end with `"." ++ domain`. -/
def isSocialMediaLink (parse : UrlParse) (href : String) : Bool :=
  if href = "" then false
  else
    match parse href with
    | none => false
    | some u =>
      let hostname := strLower u.hostname
      socialMediaDomains.any
        (fun domain => hostname = domain || strEndsWith hostname ("." ++ domain))

/-! ### Link Auditor: liveness probes (part_004 lines 210 to 267)

An axios attempt outcome is `Option Nat`: `none` is a network failure,
`some s` a response with HTTP status `s`.  With
`validateStatus: (status) => status < 500` the promise resolves exactly when
a response with status below 500 arrives; otherwise it throws. -/

/-- Whether an axios call with `validateStatus: status < 500` resolves. -/
def axiosOk : Option Nat → Bool
  | none => false
  | some s => s < 500

/-- External liveness check (part_004 lines 210 to 232): HEAD resolves and
status is 400 or more: broken; HEAD throws: retry with GET, broken exactly
when the GET also throws (a resolved GET is accepted without reading its
status). -/
def externalLinkBroken (head get : Option Nat) : Bool :=
  match head with
  | some s =>
    if s < 500 then decide (400 ≤ s)
    else !axiosOk get
  | none => !axiosOk get

/-- The GET fallback of the internal liveness check: broken when the GET
throws, or resolves with status 400 or more. -/
def internalGetRetry : Option Nat → Bool
  | some s => if s < 500 then decide (400 ≤ s) else true
  | none => true

/-- Internal liveness check (part_004 lines 233 to 267): HEAD resolves and
status is 400 or more: broken; HEAD throws: GET retry, broken when the GET
throws or resolves with status 400 or more. -/
def internalLinkBroken (head get : Option Nat) : Bool :=
  match head with
  | some s =>
    if s < 500 then decide (400 ≤ s)
    else internalGetRetry get
  | none => internalGetRetry get

/-! ### Link Auditor: per-page scan (part_004 lines 164 to 270) -/

/-- One raw anchor extracted by the renderer: the four fields the source
collects from `a[href]` elements. -/
structure LinkRec where
  href : String
  text : String
  target : String
  rel : String
deriving DecidableEq

/-- The external collaborators of one page audit: the URL constructor and
the two HTTP probe methods, each an oracle from the probed href to an
attempt outcome. -/
structure ProbeEnv where
  parse : UrlParse
  headStatus : String → Option Nat
  getStatus : String → Option Nat

/-- Loop state of the per-link scan in `checkPageLinks`. -/
structure PageState where
  checkedUrls : List String
  externalLinks : Nat
  internalLinks : Nat
  missingNoopener : Nat
  brokenLinks : List String
  brokenInternalLinks : List String
  linksWithoutNoopener : List String
deriving DecidableEq

def initState : PageState := ⟨[], 0, 0, 0, [], [], []⟩

/-- One iteration of the `for (const link of links)` loop of
`checkPageLinks` (part_004 lines 174 to 270): skip non-checkable hrefs,
skip already checked hrefs, record the href as checked, parse it (an
invalid URL is caught and skipped), then branch on external vs internal
origin; external links tally security attributes, social-media links skip
the liveness probe, all other links are probed HEAD-then-GET. -/
def processLink (env : ProbeEnv) (baseOrigin : String) (st : PageState)
    (link : LinkRec) : PageState :=
  if !isCheckableLink link.href then st
  else if st.checkedUrls.contains link.href then st
  else
    let st1 := { st with checkedUrls := st.checkedUrls ++ [link.href] }
    match env.parse link.href with
    | none => st1
    | some linkUrl =>
      if linkUrl.origin ≠ baseOrigin then
        let st2 := { st1 with externalLinks := st1.externalLinks + 1 }
        let hasNoopener := jsIncludes link.rel "noopener"
        let hasNoreferrer := jsIncludes link.rel "noreferrer"
        let st3 :=
          if !hasNoopener || !hasNoreferrer then
            { st2 with missingNoopener := st2.missingNoopener + 1,
                       linksWithoutNoopener :=
                         st2.linksWithoutNoopener ++ [link.href] }
          else st2
        if isSocialMediaLink env.parse link.href then st3
        else if externalLinkBroken (env.headStatus link.href)
                  (env.getStatus link.href) then
          { st3 with brokenLinks := st3.brokenLinks ++ [link.href] }
        else st3
      else
        let st2 := { st1 with internalLinks := st1.internalLinks + 1 }
        if internalLinkBroken (env.headStatus link.href)
            (env.getStatus link.href) then
          { st2 with brokenInternalLinks :=
                       st2.brokenInternalLinks ++ [link.href] }
        else st2

/-- The whole per-link loop over the anchor list. -/
def runLinks (env : ProbeEnv) (baseOrigin : String)
    (links : List LinkRec) : PageState :=
  links.foldl (processLink env baseOrigin) initState

/-! ### Link Auditor: report assembly (part_004 lines 272 to 346) -/

inductive Verdict where
  | pass
  | fail
  | error
deriving DecidableEq

/-- The per-page report returned by `checkPageLinks`. -/
structure LinkReport where
  overall : Verdict
  externalLinks : Nat
  internalLinks : Nat
  totalLinks : Nat
  brokenLinks : List String
  brokenCount : Nat
  brokenExternalLinks : List String
  brokenExternalCount : Nat
  brokenInternalLinks : List String
  brokenInternalCount : Nat
  missingNoopener : Nat
  linksWithoutNoopener : List String
  securityIssue : Bool
  issue : Option String
deriving DecidableEq

def pluralS (n : Nat) : String := if n = 1 then "" else "s"

/-- The issue summary string composed at part_004 lines 281 to 295. -/
def composeIssue (brokenInternal brokenExternal missing : Nat) : Option String :=
  let issues :=
    (if 0 < brokenInternal then
       [toString brokenInternal ++ " broken internal link" ++
        pluralS brokenInternal ++ " found"] else []) ++
    (if 0 < brokenExternal then
       [toString brokenExternal ++ " broken external link" ++
        pluralS brokenExternal ++ " found"] else []) ++
    (if 0 < missing then
       [toString missing ++ " external link" ++
        (if missing = 1 then " is" else "s are") ++
        " missing noopener/noreferrer attributes, creating security vulnerability"]
     else [])
  if issues = [] then none else some (String.intercalate "; " issues)

/-- The ERROR report of the outer catch (part_004 lines 328 to 345). -/
def errorReport (msg : String) : LinkReport :=
  { overall := .error, externalLinks := 0, internalLinks := 0, totalLinks := 0,
    brokenLinks := [], brokenCount := 0, brokenExternalLinks := [],
    brokenExternalCount := 0, brokenInternalLinks := [],
    brokenInternalCount := 0, missingNoopener := 0, linksWithoutNoopener := [],
    securityIssue := false, issue := some ("Error checking page: " ++ msg) }

/-- Source `checkPageLinks(pageUrl)`.  The browser navigation and anchor
extraction are a collaborator: `load` is `.ok links` when the page loaded
and yielded the anchor list, `.error msg` when navigation or launch threw
(the outer catch).  `new URL(pageUrl)` throwing inside the try is likewise
caught by the outer catch. -/
def checkPageLinks (env : ProbeEnv) (pageUrl : String)
    (load : Except String (List LinkRec)) : LinkReport :=
  match load with
  | .error msg => errorReport msg
  | .ok links =>
    match env.parse pageUrl with
    | none => errorReport "Invalid URL"
    | some baseUrl =>
      let st := runLinks env baseUrl.origin links
      let allBrokenLinks := st.brokenLinks ++ st.brokenInternalLinks
      let overall : Verdict :=
        if 0 < allBrokenLinks.length || 0 < st.missingNoopener then .fail
        else .pass
      { overall := overall,
        externalLinks := st.externalLinks,
        internalLinks := st.internalLinks,
        totalLinks := links.length,
        brokenLinks := allBrokenLinks.take 10,
        brokenCount := allBrokenLinks.length,
        brokenExternalLinks := st.brokenLinks.take 10,
        brokenExternalCount := st.brokenLinks.length,
        brokenInternalLinks := st.brokenInternalLinks.take 10,
        brokenInternalCount := st.brokenInternalLinks.length,
        missingNoopener := st.missingNoopener,
        linksWithoutNoopener := st.linksWithoutNoopener.take 10,
        securityIssue := 0 < st.missingNoopener,
        issue := composeIssue st.brokenInternalLinks.length
                   st.brokenLinks.length st.missingNoopener }

/-! ### Batch Scheduler: `checkMultiplePages` (part_004 lines 354 to 378)

The source declares exactly two parameters, `pages` and `concurrency`; the
loop advances by `concurrency` per batch, running `checkPageLinks` over the
batch and appending the batch results in order. -/

/-- One page record passed to the scheduler: `{url, pageName}`. -/
structure PwPage where
  url : String
  pageName : String
deriving DecidableEq

/-- One scheduler result record: `{url, pageName, linkChecks}`. -/
structure PwResult where
  url : String
  pageName : String
  linkChecks : LinkReport
deriving DecidableEq

/-- The body of `batch.map` in `checkMultiplePages`: wrap one page audit.
`check` is the per-page Link Auditor collaborator (`checkPageLinks`
specialised to the runtime environment). -/
def checkOnePage (check : String → LinkReport) (p : PwPage) : PwResult :=
  ⟨p.url, p.pageName, check p.url⟩

/-- The batch loop `for (let i = 0; i < pages.length; i += concurrency)`,
written over the remaining page list with a fuel bound.  Each step takes
one batch of `conc` pages, audits it, and recurses on the rest.  With
`conc = 0` the JS loop never advances (it would not terminate); the fuel
makes the recursion total, and every theorem below assumes `1 ≤ conc`,
under which the fuel `pages.length` is never exhausted. -/
def checkBatchesGo (check : String → LinkReport) (conc : Nat) :
    Nat → List PwPage → List PwResult
  | _, [] => []
  | 0, _ :: _ => []
  | fuel + 1, p :: ps =>
    ((p :: ps).take conc).map (checkOnePage check) ++
      checkBatchesGo check conc fuel ((p :: ps).drop conc)

/-- Source `checkMultiplePages(pages, concurrency)`. -/
def checkMultiplePages (check : String → LinkReport) (pages : List PwPage)
    (conc : Nat) : List PwResult :=
  checkBatchesGo check conc pages.length pages

/-- From the source: `checkMultiplePages` declares only the two parameters
`pages` and `concurrency`; the third argument that server.js passes at its
call sites is dropped by JavaScript call semantics, and the body contains
no invocation of any callback.  This definition returns the list of
`(checkedSoFar, totalPages)` invocations the batch loop makes on a supplied
progress callback: there are none. -/
def checkMultiplePagesProgressCalls (_pages : List PwPage) (_conc : Nat)
    (_cb : Nat → Nat → Unit) : List (Nat × Nat) := []

/-- Modelled from the spec: "after each chunk completes, invoke the
progress callback with (pages completed so far, total pages)".  This is
what server.js `onPageComplete` (lines 649 to 658) expects to receive; it
is the invocation list a callback-honouring batch loop would produce. -/
def specProgressCallsGo (conc total done : Nat) :
    Nat → List PwPage → List (Nat × Nat)
  | _, [] => []
  | 0, _ :: _ => []
  | fuel + 1, p :: ps =>
    let batch := min conc (p :: ps).length
    (done + batch, total) ::
      specProgressCallsGo conc total (done + batch) fuel ((p :: ps).drop conc)

/-- Modelled from the spec: the full progress-callback invocation list for
one scheduler run. -/
def specProgressCalls (pages : List PwPage) (conc : Nat) : List (Nat × Nat) :=
  specProgressCallsGo conc pages.length 0 pages.length pages

/-! ### Job Registry (server.js: `const activeJobs = new Map()`)

The registry is the JS `Map` keyed by `"start-qa:<name>"` or
`"rerun:<id>"`, modelled as an insertion-ordered association list. -/

/-- One activeJobs entry: `{type, startedAt, stage, totalPages,
checkedPages, projectName|projectId}`. -/
structure Job where
  type : String
  startedAt : Nat
  stage : String
  totalPages : Nat
  checkedPages : Nat
  projectName : Option String
  projectId : Option String
deriving DecidableEq

abbrev Registry : Type := List (String × Job)

/-- JS `Map.prototype.get`. -/
def mapGet (reg : Registry) (k : String) : Option Job :=
  (List.find? (fun kv => kv.1 = k) reg).map Prod.snd

/-- JS `Map.prototype.set`: replace an existing key, else append. -/
def mapSet (reg : Registry) (k : String) (v : Job) : Registry :=
  if List.any reg (fun kv => kv.1 = k) then
    List.map (fun kv => if kv.1 = k then (k, v) else kv) reg
  else reg ++ [(k, v)]

/-- JS `Map.prototype.delete`. -/
def mapDelete (reg : Registry) (k : String) : Registry :=
  List.filter (fun kv => kv.1 ≠ k) reg

/-- `const job = activeJobs.get(jobKey); if (job) job.stage = s;` -/
def setStage (reg : Registry) (k s : String) : Registry :=
  List.map (fun kv => if kv.1 = k then (kv.1, { kv.2 with stage := s }) else kv)
    reg

/-! ### Admission Controller (server.js `/start-qa` lines 554 to 629 and
`/rerun` lines 713 to 768)

`await` points all come before the synchronous check-then-insert block
(guard 2 plus `activeJobs.set`), so in the single-threaded event loop the
admission of concurrent requests composes sequentially; the functions below
are that atomic block together with the earlier guards, whose external
collaborators (supabase, `isN8nBusy`) are oracle fields. -/

/-- One page object of a `/start-qa` or `/rerun` request body; the source
reads `page_url || pageUrl` and `page_name || pageName`. -/
structure InPage where
  page_url : Option String
  pageUrl : Option String
  page_name : Option String
  pageName : Option String
deriving DecidableEq

/-- `POST /start-qa` body, flattened: `project_data.project_name` is `none`
when `project_data` is absent or its `project_name` falsy. -/
structure StartQaReq where
  project_name : Option String
  staging_url : Option String
  pages : List InPage
  n8n_webhook_url : Option String
deriving DecidableEq

/-- `POST /rerun` body. -/
structure RerunReq where
  project_id : Option String
  pages : List InPage
  n8n_webhook_url : Option String
deriving DecidableEq

/-- Process environment and external collaborators consulted during
admission: `N8N_WEBHOOK_URL` (empty when unset), whether supabase is
configured, the duplicate-staging-URL query (the name of the existing
project, `none` covering both no-duplicate and a caught query error), the
`isN8nBusy()` answer (the busy project name), and `Date.now()`. -/
structure ServerEnv where
  n8nWebhookDefault : String
  supabaseConfigured : Bool
  stagingDupe : String → Option String
  n8nBusy : Option String
  now : Nat

/-- Admission responses: 400 validation or configuration errors, the two
409 conflict shapes, and the immediate `{status:"processing"}` acceptance. -/
inductive AdmitResp where
  | badRequest (msg : String)
  | conflictDuplicate (existingName : String)
  | conflictBusy (label : String)
  | accepted (identifier : String)
deriving DecidableEq

/-- Whether an admission response is one of the 409 conflicts. -/
def is409 : AdmitResp → Bool
  | .conflictDuplicate _ => true
  | .conflictBusy _ => true
  | _ => false

/-- `existingJob.projectName || existingJob.projectId || existingKey` for
the first registry entry (the busy-rejection label). -/
def jobLabelOf (reg : Registry) : String :=
  match reg with
  | [] => ""
  | (k, j) :: _ => jsOrD j.projectName j.projectId k

/-- The job row inserted by `/start-qa` admission. -/
def newStartJob (env : ServerEnv) (req : StartQaReq) (pname : String) : Job :=
  { type := "start-qa", startedAt := env.now, stage := "checking_links",
    totalPages := req.pages.length, checkedPages := 0,
    projectName := some pname, projectId := none }

/-- The job row inserted by `/rerun` admission. -/
def newRerunJob (env : ServerEnv) (req : RerunReq) (pid : String) : Job :=
  { type := "rerun", startedAt := env.now, stage := "checking_links",
    totalPages := req.pages.length, checkedPages := 0,
    projectName := none, projectId := some pid }

/-- The `/start-qa` admission sequence (server.js lines 554 to 636):
validation 400, webhook configuration 400, guard 0 duplicate staging URL
(only when supabase is configured and `staging_url` truthy; a query error
is caught and admission continues), guard 1 `isN8nBusy`, guard 2 the global
registry gate, then the `activeJobs.set` insertion and acceptance. -/
def startQaAdmit (env : ServerEnv) (req : StartQaReq) (reg : Registry) :
    AdmitResp × Registry :=
  match truthyStr req.project_name with
  | none => (.badRequest "project_data with project_name is required", reg)
  | some pname =>
    if jsOrD req.n8n_webhook_url (some env.n8nWebhookDefault) "" = "" then
      (.badRequest "n8n webhook URL is not configured", reg)
    else
      match (if env.supabaseConfigured then
               (truthyStr req.staging_url).bind env.stagingDupe
             else none) with
      | some existingName => (.conflictDuplicate existingName, reg)
      | none =>
        match env.n8nBusy with
        | some busyName => (.conflictBusy busyName, reg)
        | none =>
          if 0 < reg.length then (.conflictBusy (jobLabelOf reg), reg)
          else
            (.accepted pname,
             mapSet reg ("start-qa:" ++ pname) (newStartJob env req pname))

/-- The `/rerun` admission sequence (server.js lines 713 to 768): the same
guards minus the duplicate-staging-URL check. -/
def rerunAdmit (env : ServerEnv) (req : RerunReq) (reg : Registry) :
    AdmitResp × Registry :=
  match truthyStr req.project_id with
  | none => (.badRequest "project_id is required", reg)
  | some pid =>
    if jsOrD req.n8n_webhook_url (some env.n8nWebhookDefault) "" = "" then
      (.badRequest "n8n webhook URL is not configured", reg)
    else
      match env.n8nBusy with
      | some busyName => (.conflictBusy busyName, reg)
      | none =>
        if 0 < reg.length then (.conflictBusy (jobLabelOf reg), reg)
        else
          (.accepted pid,
           mapSet reg ("rerun:" ++ pid) (newRerunJob env req pid))

/-! ### Background tasks (server.js lines 630 to 706 and 770 to 846)

Each accepted run detaches an async IIFE:
`try { step 1 link checks (inner try/catch swallows); stage update; step 2
webhook POST; stage update } catch { log } finally { activeJobs.delete }`.
The registry effect and the forwarded page list are modelled separately;
the link-check callback never mutates the registry because the scheduler
never invokes it (see `checkMultiplePagesProgressCalls`). -/

/-- Collaborator outcomes of one background run: the per-page auditor, the
resolved concurrency value, whether an exception escapes the link-checking
step (caught by the inner catch), and whether the webhook POST throws
(caught by the outer catch). -/
structure BgEnv where
  checkFn : String → LinkReport
  concurrency : Nat
  linkStepThrows : Bool
  webhookThrows : Bool

/-- `pages.map(p => ({url: p.page_url || p.pageUrl, pageName: p.page_name
|| p.pageName || 'Page'})).filter(p => p.url)`. -/
def playwrightPagesOf (pages : List InPage) : List PwPage :=
  pages.filterMap (fun p =>
    match truthyStr (jsOr p.page_url p.pageUrl) with
    | some u => some ⟨u, jsOrD p.page_name p.pageName "Page"⟩
    | none => none)

/-- The trailing-slash-insensitive lookup of one page among the scheduler
results: `linkResults.find(l => (l.url || '').replace(/\/+$/,'') ===
pageUrl)` with `pageUrl` already stripped. -/
def findLinkResult (linkResults : List PwResult) (strippedUrl : String) :
    Option PwResult :=
  linkResults.find? (fun l => stripTrailingSlashes l.url = strippedUrl)

/-- Step 1 of the `/start-qa` background task (lines 636 to 675): the pages
forwarded to the webhook, each paired with its `link_checks` value (`none`
models both an absent field, for the raw fallback list, and an explicit
`null` for an unmatched page).  `let pagesWithLinkChecks = pages || [];`
initialises the fallback to the original page list, kept when `pages` is
empty, when no page has a usable url, or when the link-checking step
throws. -/
def startQaBgPages (env : BgEnv) (pages : List InPage) :
    List (InPage × Option LinkReport) :=
  let fallback := pages.map (fun p => (p, (none : Option LinkReport)))
  if pages.isEmpty then fallback
  else if (playwrightPagesOf pages).isEmpty then fallback
  else if env.linkStepThrows then fallback
  else
    let linkResults := checkMultiplePages env.checkFn (playwrightPagesOf pages)
      env.concurrency
    pages.map (fun p =>
      let pageUrl := stripTrailingSlashes (jsOrD p.page_url p.pageUrl "")
      (p, (findLinkResult linkResults pageUrl).map PwResult.linkChecks))

/-- One page of the `/rerun` webhook payload:
`{page_url, page_name, link_checks}`. -/
structure RerunPage where
  page_url : Option String
  page_name : String
  link_checks : Option LinkReport
deriving DecidableEq

/-- Step 1 of the `/rerun` background task (lines 775 to 815).  Unlike
`/start-qa`, the fallback is `let pagesWithLinkChecks = [];` — the empty
list — and the success branch keeps only pages whose `link_checks` matched
(`.filter(p => p.link_checks != null)`). -/
def rerunBgPages (env : BgEnv) (pages : List InPage) : List RerunPage :=
  let fallback : List RerunPage := []
  if pages.isEmpty then fallback
  else if (playwrightPagesOf pages).isEmpty then fallback
  else if env.linkStepThrows then fallback
  else
    let linkResults := checkMultiplePages env.checkFn (playwrightPagesOf pages)
      env.concurrency
    (pages.map (fun p =>
      let pageUrl := stripTrailingSlashes (jsOrD p.page_url p.pageUrl "")
      ({ page_url := jsOr p.page_url p.pageUrl,
         page_name := jsOrD p.page_name p.pageName "Page",
         link_checks :=
           (findLinkResult linkResults pageUrl).map PwResult.linkChecks }
        : RerunPage))).filter (fun p => p.link_checks.isSome)

/-- The registry effect of one background task (identical in both
handlers): inside the try the stage moves to `forwarding_to_n8n`, the
webhook POST either throws (jumping to the catch, which only logs) or is
followed by the `completed` stage update, and the finally block deletes the
job key unconditionally.  The link-checking step never touches the
registry: its exception is swallowed by the inner catch before the stage
update, and the progress callback that would bump `checkedPages` is never
invoked by the scheduler. -/
def bgRegistryRun (jobKey : String) (webhookThrows : Bool)
    (reg : Registry) : Registry :=
  let reg1 := setStage reg jobKey "forwarding_to_n8n"
  let reg2 := if webhookThrows then reg1 else setStage reg1 jobKey "completed"
  mapDelete reg2 jobKey

/-! ### `GET /job-status` (server.js lines 850 to 920) -/

/-- The job-status responses: 400 when neither identifier is supplied, an
in-memory job hit, the synthetic `n8n_processing` record, or
`{found:false}`. -/
inductive JobStatusResp where
  | badRequest
  | foundJob (type stage : String) (totalPages checkedPages startedAt
      elapsed : Nat) (projectName projectId : Option String)
  | foundN8n (projectName : String)
  | notFound
deriving DecidableEq

/-- `Math.round((now - startedAt) / 1000)` on naturals: round half up. -/
def elapsedSeconds (now startedAt : Nat) : Nat := (now - startedAt + 500) / 1000

/-- Source `GET /job-status`: 400 when both query parameters are falsy;
otherwise look up `start-qa:<name>`, then `rerun:<id>`, then scan the
registry for a matching `projectName`; when nothing matches, fall back to
the external `isN8nBusy` collaborator, else `{found:false}`. -/
def handleJobStatus (reg : Registry) (n8nBusy : Option String) (now : Nat)
    (project_name project_id : Option String) : JobStatusResp :=
  if truthyStr project_name = none ∧ truthyStr project_id = none then
    .badRequest
  else
    let job1 := match truthyStr project_name with
      | some pn => mapGet reg ("start-qa:" ++ pn)
      | none => none
    let job2 := match job1 with
      | some j => some j
      | none => match truthyStr project_id with
        | some pid => mapGet reg ("rerun:" ++ pid)
        | none => none
    let job3 := match job2 with
      | some j => some j
      | none => match truthyStr project_name with
        | some pn =>
          (List.find? (fun (kv : String × Job) => kv.2.projectName = some pn)
            reg).map Prod.snd
        | none => none
    match job3 with
    | some job =>
      .foundJob job.type job.stage job.totalPages job.checkedPages
        job.startedAt (elapsedSeconds now job.startedAt)
        job.projectName job.projectId
    | none =>
      match n8nBusy with
      | some name => .foundN8n name
      | none => .notFound

/-! ### Spec-side comparators and derived predicates -/

/-- Modelled from the spec ("a link is broken if both attempts fail or
return >= 400"): one probe attempt is bad when it fails or returns a
status of 400 or more. -/
def specAttemptBad : Option Nat → Bool
  | none => true
  | some s => decide (400 ≤ s)

/-- Modelled from the spec: a link is broken exactly when both the HEAD
attempt and the GET retry are bad. -/
def specLinkBroken (head get : Option Nat) : Bool :=
  specAttemptBad head && specAttemptBad get

/-- A HEAD attempt that resolves with a 4xx status: the code marks the
link broken immediately, without any GET retry. -/
def headBroken4xx : Option Nat → Bool
  | some s => decide (400 ≤ s) && decide (s < 500)
  | none => false

/-- Whether the load collaborator threw (page could not be loaded). -/
def loadFailed : Except String (List LinkRec) → Bool
  | .error _ => true
  | .ok _ => false

/-- First-occurrence deduplication of an anchor list by exact href string
(what the `checkedUrls` set effects inside the scan loop). -/
def dedupeHrefGo (seen : List String) : List LinkRec → List LinkRec
  | [] => []
  | l :: ls =>
    if seen.contains l.href then dedupeHrefGo seen ls
    else l :: dedupeHrefGo (seen ++ [l.href]) ls

def dedupeByHref (links : List LinkRec) : List LinkRec := dedupeHrefGo [] links

/-! ### Concrete inputs used by witnesses and counterexamples -/

def stubReport : LinkReport := errorReport "stub"

def stubCheck : String → LinkReport := fun _ => stubReport

def twoPages : List PwPage :=
  [⟨"https://x.com/a", "A"⟩, ⟨"https://x.com/b", "B"⟩]

/-- A URL-constructor oracle for the witness scenarios. -/
def parseW : UrlParse := fun h =>
  if h = "https://www.facebook.com/acme" then
    some ⟨"https://www.facebook.com", "www.facebook.com"⟩
  else if h = "https://site.com/" then some ⟨"https://site.com", "site.com"⟩
  else if h = "https://site.com/about" then
    some ⟨"https://site.com", "site.com"⟩
  else none

def probeEnvW : ProbeEnv := ⟨parseW, fun _ => some 200, fun _ => some 200⟩

/-- Same URL oracle, different probe oracles (used to show probe
independence for denylisted links). -/
def probeEnvW2 : ProbeEnv := ⟨parseW, fun _ => none, fun _ => none⟩

def fbLink : LinkRec := ⟨"https://www.facebook.com/acme", "FB", "_blank", ""⟩

def envW : ServerEnv :=
  { n8nWebhookDefault := "https://n8n.example/webhook",
    supabaseConfigured := true, stagingDupe := fun _ => none,
    n8nBusy := none, now := 1000 }

def req1W : StartQaReq :=
  { project_name := some "Acme", staging_url := some "https://stage.acme.com",
    pages := [], n8n_webhook_url := none }

def req2W : RerunReq :=
  { project_id := some "id-42", pages := [], n8n_webhook_url := none }

def regW : Registry :=
  [("start-qa:Other",
    { type := "start-qa", startedAt := 0, stage := "checking_links",
      totalPages := 0, checkedPages := 0, projectName := some "Other",
      projectId := none })]

def bgEnvThrow : BgEnv :=
  { checkFn := stubCheck, concurrency := 1, linkStepThrows := true,
    webhookThrows := false }

def onePageIn : List InPage :=
  [{ page_url := some "https://a.com", pageUrl := none,
     page_name := some "Home", pageName := none }]

/-! ## Theorems -/

/-! ### Batch Scheduler: length and order (C3) -/

theorem checkBatchesGo_eq_map (check : String → LinkReport) (conc : Nat)
    (hc : 1 ≤ conc) :
    ∀ (fuel : Nat) (ps : List PwPage), ps.length ≤ fuel →
      checkBatchesGo check conc fuel ps = ps.map (checkOnePage check) := by
  intro fuel
  induction fuel with
  | zero =>
    intro ps hps
    cases ps with
    | nil => rfl
    | cons p ps => simp at hps
  | succ n ih =>
    intro ps hps
    cases ps with
    | nil => rfl
    | cons p ps =>
      have hdrop : ((p :: ps).drop conc).length ≤ n := by
        simp only [List.length_drop, List.length_cons]
        simp only [List.length_cons] at hps
        omega
      rw [checkBatchesGo, ih _ hdrop, ← List.map_append, List.take_append_drop]

/-- C3: for every page list and every concurrency width W with 1 <= W, the
batch scheduler `checkMultiplePages` returns exactly one result per input
page, in the input order (it equals the plain map of the per-page audit
over the input list). -/
theorem checkMultiplePages_length_order (check : String → LinkReport)
    (pages : List PwPage) (W : Nat) (hW : 1 ≤ W) :
    (checkMultiplePages check pages W).length = pages.length ∧
    checkMultiplePages check pages W = pages.map (checkOnePage check) := by
  have h := checkBatchesGo_eq_map check W hW pages.length pages le_rfl
  exact ⟨by rw [checkMultiplePages, h, List.length_map], h⟩

/-- Witness for C3 at two concrete pages and W = 1. -/
theorem checkMultiplePages_length_order_witness :
    (checkMultiplePages stubCheck twoPages 1).length = twoPages.length ∧
    checkMultiplePages stubCheck twoPages 1 =
      twoPages.map (checkOnePage stubCheck) :=
  checkMultiplePages_length_order stubCheck twoPages 1 (by decide)

/-! ### Batch Scheduler: progress callback (C4) -/

/-- C4: the source `checkMultiplePages` never invokes a progress callback
(its declared parameters are only `pages` and `concurrency`; the third
argument passed by server.js is dropped), so for two pages at concurrency 1
the invocation list is empty, whereas the callback-honouring scheduler the
spec describes would produce (1,2) then (2,2) for server.js
`onPageComplete`. -/
theorem progress_callback_never_invoked :
    checkMultiplePagesProgressCalls twoPages 1 (fun _ _ => ()) = [] ∧
    specProgressCalls twoPages 1 = [(1, 2), (2, 2)] := by
  exact ⟨rfl, by decide⟩

/-! ### Liveness retry rule (C5) -/

/-- C5 counterexample: the claimed rule "broken iff both attempts fail or
return >= 400" is false on the code.  With HEAD resolving 404 and GET
resolving 200, the external check marks the link broken (no GET retry
happens on a 4xx HEAD), while the claimed rule says not broken; with HEAD
failing and GET resolving 404, the external check accepts the link (the
GET retry ignores the 4xx status), while the claimed rule says broken. -/
theorem liveness_retry_rule_counterexample :
    (externalLinkBroken (some 404) (some 200) = true ∧
     specLinkBroken (some 404) (some 200) = false) ∧
    (externalLinkBroken none (some 404) = false ∧
     specLinkBroken none (some 404) = true) := by
  decide

/-- C5 amended: the GET retry happens only when the HEAD attempt throws
(network failure or status >= 500); a HEAD response with a 4xx status marks
the link broken immediately with no retry.  On retry, an internal link is
broken iff the GET throws or returns >= 400, while an external link is
broken iff the GET throws (a resolved 4xx GET is accepted). -/
theorem liveness_retry_rule_amended (head get : Option Nat) :
    externalLinkBroken head get =
      (headBroken4xx head || (!axiosOk head && !axiosOk get)) ∧
    internalLinkBroken head get =
      (headBroken4xx head || (!axiosOk head && specAttemptBad get)) := by
  constructor
  · rcases head with _ | s
    · simp [externalLinkBroken, headBroken4xx, axiosOk]
    · by_cases h5 : s < 500 <;>
        simp [externalLinkBroken, headBroken4xx, axiosOk, h5]
  · rcases head with _ | s
    · rcases get with _ | t
      · simp [internalLinkBroken, internalGetRetry, headBroken4xx, axiosOk,
          specAttemptBad]
      · by_cases g5 : t < 500
        · simp [internalLinkBroken, internalGetRetry, headBroken4xx, axiosOk,
            specAttemptBad, g5]
        · simp [internalLinkBroken, internalGetRetry, headBroken4xx, axiosOk,
            specAttemptBad, g5]
          omega
    · by_cases h5 : s < 500
      · simp [internalLinkBroken, internalGetRetry, headBroken4xx, axiosOk, h5]
      · rcases get with _ | t
        · simp [internalLinkBroken, internalGetRetry, headBroken4xx, axiosOk,
            specAttemptBad, h5]
        · by_cases g5 : t < 500
          · simp [internalLinkBroken, internalGetRetry, headBroken4xx,
              axiosOk, specAttemptBad, h5, g5]
          · simp [internalLinkBroken, internalGetRetry, headBroken4xx,
              axiosOk, specAttemptBad, h5, g5]
            omega

/-! ### Job Registry release (C2) -/

theorem mapGet_mapDelete (reg : Registry) (k : String) :
    mapGet (mapDelete reg k) k = none := by
  simp [mapGet, mapDelete]

/-- C2: the background task of an accepted run always removes its own job
entry in its finally block: whatever the webhook outcome (the only step
whose exception reaches the outer catch; the link-checking step is caught
earlier and never mutates the registry), the owning key is absent from the
registry the task leaves behind. -/
theorem background_task_releases_job (jobKey : String)
    (webhookThrows : Bool) (reg : Registry) :
    mapGet (bgRegistryRun jobKey webhookThrows reg) jobKey = none := by
  unfold bgRegistryRun
  exact mapGet_mapDelete _ jobKey

/-! ### Job status validation (C10) -/

/-- C10: a `GET /job-status` request supplying neither `project_name` nor
`project_id` is answered 400, and the answer is the same whatever the
registry contents, the external busy-check answer, or the clock: neither
collaborator influences the response. -/
theorem jobStatus_requires_identifier (reg reg' : Registry)
    (busy busy' : Option String) (now now' : Nat) :
    handleJobStatus reg busy now none none = JobStatusResp.badRequest ∧
    handleJobStatus reg busy now none none =
      handleJobStatus reg' busy' now' none none := by
  constructor <;> rfl

/-! ### Link-step failure fallback (C9) -/

/-- C9 counterexample: with one page supplied and the link-checking step
throwing, the rerun background task forwards the empty list rather than the
original unaudited page list (the start-qa task does fall back to the
original list). -/
theorem rerun_fallback_counterexample :
    rerunBgPages bgEnvThrow onePageIn = [] ∧ onePageIn.length = 1 ∧
    startQaBgPages bgEnvThrow onePageIn =
      onePageIn.map (fun p => (p, none)) := by
  refine ⟨rfl, rfl, ?_⟩
  decide

/-- C9 amended: when an exception escapes the link-checking step, both
background tasks still proceed to the webhook forward with their fallback
page list, which is the original unaudited page list for start-qa but the
empty list for rerun. -/
theorem link_step_exception_fallback (env : BgEnv) (pages : List InPage)
    (h : env.linkStepThrows = true) :
    startQaBgPages env pages = pages.map (fun p => (p, none)) ∧
    rerunBgPages env pages = [] := by
  constructor
  · simp only [startQaBgPages, h]
    split_ifs <;> rfl
  · simp only [rerunBgPages, h]
    split_ifs <;> rfl

/-- Witness for C9 amended at a concrete one-page run. -/
theorem link_step_exception_fallback_witness :
    startQaBgPages bgEnvThrow onePageIn =
      onePageIn.map (fun p => (p, none)) ∧
    rerunBgPages bgEnvThrow onePageIn = [] :=
  link_step_exception_fallback bgEnvThrow onePageIn rfl

/-! ### Verdict characterisation (C8) -/

/-- C8: for a page whose URL parses, the report verdict is FAIL iff
`brokenCount` or `missingNoopener` is positive, ERROR iff the page load
collaborator threw (in which case every count is zero), and PASS exactly
otherwise. -/
theorem verdict_characterisation (env : ProbeEnv) (pageUrl : String)
    (load : Except String (List LinkRec)) (u : UrlParts)
    (hparse : env.parse pageUrl = some u) :
    ((checkPageLinks env pageUrl load).overall = Verdict.fail ↔
      (0 < (checkPageLinks env pageUrl load).brokenCount ∨
       0 < (checkPageLinks env pageUrl load).missingNoopener)) ∧
    ((checkPageLinks env pageUrl load).overall = Verdict.error ↔
      loadFailed load = true) ∧
    (loadFailed load = true →
      (checkPageLinks env pageUrl load).externalLinks = 0 ∧
      (checkPageLinks env pageUrl load).internalLinks = 0 ∧
      (checkPageLinks env pageUrl load).totalLinks = 0 ∧
      (checkPageLinks env pageUrl load).brokenCount = 0 ∧
      (checkPageLinks env pageUrl load).missingNoopener = 0) ∧
    ((checkPageLinks env pageUrl load).overall = Verdict.pass ↔
      ((checkPageLinks env pageUrl load).brokenCount = 0 ∧
       (checkPageLinks env pageUrl load).missingNoopener = 0 ∧
       loadFailed load = false)) := by
  rcases load with msg | links
  · simp [checkPageLinks, errorReport, loadFailed]
  · simp only [checkPageLinks, hparse, loadFailed]
    split_ifs with hcond
    · simp only [Bool.or_eq_true, decide_eq_true_eq] at hcond
      refine ⟨iff_of_true rfl hcond, ?_, ?_, ?_⟩
      · simp
      · simp
      · refine iff_of_false (by simp) ?_
        rintro ⟨h1, h2, -⟩
        rcases hcond with h | h <;> omega
    · simp only [Bool.or_eq_true, decide_eq_true_eq, not_or] at hcond
      refine ⟨iff_of_false (by simp) ?_, by simp, by simp, iff_of_true rfl ?_⟩
      · rintro (h | h) <;> omega
      · exact ⟨by omega, by omega, by trivial⟩

/-- Witness for C8 on a concrete parseable page with an empty anchor
list. -/
theorem verdict_characterisation_witness :
    ((checkPageLinks probeEnvW "https://site.com/"
        (Except.ok [])).overall = Verdict.fail ↔
      (0 < (checkPageLinks probeEnvW "https://site.com/"
              (Except.ok [])).brokenCount ∨
       0 < (checkPageLinks probeEnvW "https://site.com/"
              (Except.ok [])).missingNoopener)) ∧
    ((checkPageLinks probeEnvW "https://site.com/"
        (Except.ok [])).overall = Verdict.error ↔
      loadFailed (Except.ok []) = true) ∧
    (loadFailed (Except.ok []) = true →
      (checkPageLinks probeEnvW "https://site.com/"
        (Except.ok [])).externalLinks = 0 ∧
      (checkPageLinks probeEnvW "https://site.com/"
        (Except.ok [])).internalLinks = 0 ∧
      (checkPageLinks probeEnvW "https://site.com/"
        (Except.ok [])).totalLinks = 0 ∧
      (checkPageLinks probeEnvW "https://site.com/"
        (Except.ok [])).brokenCount = 0 ∧
      (checkPageLinks probeEnvW "https://site.com/"
        (Except.ok [])).missingNoopener = 0) ∧
    ((checkPageLinks probeEnvW "https://site.com/"
        (Except.ok [])).overall = Verdict.pass ↔
      ((checkPageLinks probeEnvW "https://site.com/"
          (Except.ok [])).brokenCount = 0 ∧
       (checkPageLinks probeEnvW "https://site.com/"
          (Except.ok [])).missingNoopener = 0 ∧
       loadFailed (Except.ok []) = false)) :=
  verdict_characterisation probeEnvW "https://site.com/" (Except.ok [])
    ⟨"https://site.com", "site.com"⟩ (by decide)

/-! ### Per-link scan step lemmas -/

theorem processLink_not_checkable (env : ProbeEnv) (b : String)
    (st : PageState) (l : LinkRec) (h : isCheckableLink l.href = false) :
    processLink env b st l = st := by
  simp [processLink, h]

theorem processLink_seen (env : ProbeEnv) (b : String) (st : PageState)
    (l : LinkRec) (h1 : isCheckableLink l.href = true)
    (h2 : st.checkedUrls.contains l.href = true) :
    processLink env b st l = st := by
  have h2m : l.href ∈ st.checkedUrls := by simpa using h2
  simp [processLink, h1, h2m]

theorem processLink_new (env : ProbeEnv) (b : String) (st : PageState)
    (l : LinkRec) (h1 : isCheckableLink l.href = true)
    (h2 : st.checkedUrls.contains l.href = false) :
    (processLink env b st l).checkedUrls = st.checkedUrls ++ [l.href] ∧
    ((processLink env b st l).brokenLinks = st.brokenLinks ∨
     (processLink env b st l).brokenLinks = st.brokenLinks ++ [l.href]) ∧
    ((processLink env b st l).brokenInternalLinks = st.brokenInternalLinks ∨
     (processLink env b st l).brokenInternalLinks =
       st.brokenInternalLinks ++ [l.href]) := by
  simp only [processLink, h1, h2, Bool.not_true, Bool.false_eq_true,
    if_false, ite_true, ite_false]
  rcases hp : env.parse l.href with _ | u
  · simp
  · by_cases ho : u.origin = b <;> split_ifs <;> simp [ho]

theorem processLink_contains_self (env : ProbeEnv) (b : String)
    (st : PageState) (l : LinkRec) (h1 : isCheckableLink l.href = true) :
    (processLink env b st l).checkedUrls.contains l.href = true := by
  cases h2 : st.checkedUrls.contains l.href
  · rw [(processLink_new env b st l h1 h2).1]
    simp
  · rw [processLink_seen env b st l h1 h2]
    exact h2

theorem processLink_contains_mono (env : ProbeEnv) (b : String)
    (st : PageState) (l : LinkRec) (x : String)
    (h : st.checkedUrls.contains x = true) :
    (processLink env b st l).checkedUrls.contains x = true := by
  cases h1 : isCheckableLink l.href
  · rw [processLink_not_checkable env b st l h1]
    exact h
  · cases h2 : st.checkedUrls.contains l.href
    · rw [(processLink_new env b st l h1 h2).1]
      simp at h ⊢
      exact Or.inl h
    · rw [processLink_seen env b st l h1 h2]
      exact h

/-! ### Deduplication (C7) -/

theorem foldl_processLink_dedupe (env : ProbeEnv) (b : String) :
    ∀ (links : List LinkRec) (st : PageState) (seen : List String),
      (∀ h, seen.contains h = true → isCheckableLink h = true →
        st.checkedUrls.contains h = true) →
      List.foldl (processLink env b) st (dedupeHrefGo seen links) =
        List.foldl (processLink env b) st links := by
  intro links
  induction links with
  | nil =>
    intro st seen _
    rfl
  | cons l ls ih =>
    intro st seen hinv
    cases hseen : seen.contains l.href
    · rw [dedupeHrefGo, if_neg (by simpa using hseen), List.foldl_cons,
        List.foldl_cons]
      apply ih
      intro h hmem hchk
      by_cases hh : h = l.href
      · subst hh
        exact processLink_contains_self env b st l hchk
      · have hs : seen.contains h = true := by
          simp at hmem
          rcases hmem with hm | hm
          · simpa using hm
          · exact absurd hm hh
        exact processLink_contains_mono env b st l h (hinv h hs hchk)
    · rw [dedupeHrefGo, if_pos hseen, List.foldl_cons]
      have hnoop : processLink env b st l = st := by
        cases hc : isCheckableLink l.href
        · exact processLink_not_checkable env b st l hc
        · exact processLink_seen env b st l hc (hinv l.href hseen hc)
      rw [hnoop]
      exact ih st seen hinv

/-- C7: the per-page scan verifies each unique href once: folding the scan
over the raw anchor list equals folding it over the first-occurrence
deduplicated list (so repeated hrefs contribute nothing further), while
`totalLinks` still counts every raw anchor. -/
theorem dedup_unique_href_once (env : ProbeEnv) (pageUrl : String)
    (links : List LinkRec) (u : UrlParts)
    (hparse : env.parse pageUrl = some u) :
    runLinks env u.origin links =
      runLinks env u.origin (dedupeByHref links) ∧
    (checkPageLinks env pageUrl (Except.ok links)).totalLinks =
      links.length := by
  constructor
  · unfold runLinks dedupeByHref
    exact (foldl_processLink_dedupe env u.origin links initState []
      (by intro h hc; simp at hc)).symm
  · simp [checkPageLinks, hparse]

/-- Witness for C7 at a page with the same anchor repeated. -/
theorem dedup_unique_href_once_witness :
    runLinks probeEnvW
        (⟨"https://site.com", "site.com"⟩ : UrlParts).origin
        [fbLink, fbLink] =
      runLinks probeEnvW
        (⟨"https://site.com", "site.com"⟩ : UrlParts).origin
        (dedupeByHref [fbLink, fbLink]) ∧
    (checkPageLinks probeEnvW "https://site.com/"
      (Except.ok [fbLink, fbLink])).totalLinks =
      ([fbLink, fbLink] : List LinkRec).length :=
  dedup_unique_href_once probeEnvW "https://site.com/" [fbLink, fbLink]
    ⟨"https://site.com", "site.com"⟩ (by decide)

/-! ### Social-media denylist (C6) -/

theorem processLink_social (env : ProbeEnv) (b : String) (st : PageState)
    (l : LinkRec) (u : UrlParts)
    (hparse : env.parse l.href = some u) (hext : u.origin ≠ b)
    (hsoc : isSocialMediaLink env.parse l.href = true) :
    (processLink env b st l).brokenLinks = st.brokenLinks ∧
    (processLink env b st l).brokenInternalLinks =
      st.brokenInternalLinks := by
  cases h1 : isCheckableLink l.href
  · rw [processLink_not_checkable env b st l h1]
    exact ⟨rfl, rfl⟩
  · cases h2 : st.checkedUrls.contains l.href
    · simp only [processLink, h1, h2, Bool.not_true, Bool.false_eq_true,
        if_false, ite_true, ite_false, hparse, hsoc]
      split_ifs <;> simp_all
    · rw [processLink_seen env b st l h1 h2]
      exact ⟨rfl, rfl⟩

theorem processLink_broken_cases (env : ProbeEnv) (b : String)
    (st : PageState) (l : LinkRec) :
    ((processLink env b st l).brokenLinks = st.brokenLinks ∨
     (processLink env b st l).brokenLinks = st.brokenLinks ++ [l.href]) ∧
    ((processLink env b st l).brokenInternalLinks = st.brokenInternalLinks ∨
     (processLink env b st l).brokenInternalLinks =
       st.brokenInternalLinks ++ [l.href]) := by
  cases h1 : isCheckableLink l.href
  · rw [processLink_not_checkable env b st l h1]
    exact ⟨Or.inl rfl, Or.inl rfl⟩
  · cases h2 : st.checkedUrls.contains l.href
    · have h := processLink_new env b st l h1 h2
      exact ⟨h.2.1, h.2.2⟩
    · rw [processLink_seen env b st l h1 h2]
      exact ⟨Or.inl rfl, Or.inl rfl⟩

theorem processLink_social_form (env : ProbeEnv) (b : String)
    (st : PageState) (l : LinkRec) (u : UrlParts)
    (hchk : isCheckableLink l.href = true)
    (hdup : st.checkedUrls.contains l.href = false)
    (hparse : env.parse l.href = some u)
    (hext : u.origin ≠ b)
    (hsoc : isSocialMediaLink env.parse l.href = true) :
    processLink env b st l =
      (if (!jsIncludes l.rel "noopener" || !jsIncludes l.rel "noreferrer") then
        { st with checkedUrls := st.checkedUrls ++ [l.href],
                  externalLinks := st.externalLinks + 1,
                  missingNoopener := st.missingNoopener + 1,
                  linksWithoutNoopener := st.linksWithoutNoopener ++ [l.href] }
      else
        { st with checkedUrls := st.checkedUrls ++ [l.href],
                  externalLinks := st.externalLinks + 1 }) := by
  simp only [processLink, hchk, hdup, Bool.not_true, Bool.false_eq_true,
    if_false, ite_true, ite_false, hparse, hsoc]
  split_ifs <;> simp_all

theorem foldl_social_not_broken (env : ProbeEnv) (b : String) (h : String)
    (u : UrlParts) (hparse : env.parse h = some u) (hext : u.origin ≠ b)
    (hsoc : isSocialMediaLink env.parse h = true) :
    ∀ (links : List LinkRec) (st : PageState),
      h ∉ st.brokenLinks → h ∉ st.brokenInternalLinks →
      h ∉ (links.foldl (processLink env b) st).brokenLinks ∧
      h ∉ (links.foldl (processLink env b) st).brokenInternalLinks := by
  intro links
  induction links with
  | nil =>
    intro st hb hbi
    exact ⟨hb, hbi⟩
  | cons l ls ih =>
    intro st hb hbi
    rw [List.foldl_cons]
    by_cases hl : l.href = h
    · have hsame := processLink_social env b st l u (hl ▸ hparse) hext
        (hl ▸ hsoc)
      exact ih (processLink env b st l)
        (hsame.1 ▸ hb) (hsame.2 ▸ hbi)
    · have hcases := processLink_broken_cases env b st l
      apply ih
      · rcases hcases.1 with hc | hc <;> rw [hc]
        · exact hb
        · intro hmem
          rcases List.mem_append.mp hmem with hm | hm
          · exact hb hm
          · exact hl (List.mem_singleton.mp hm).symm
      · rcases hcases.2 with hc | hc <;> rw [hc]
        · exact hbi
        · intro hmem
          rcases List.mem_append.mp hmem with hm | hm
          · exact hbi hm
          · exact hl (List.mem_singleton.mp hm).symm

/-- C6: a checkable external link on the social denylist is never probed
(the scan result does not depend on the HTTP probe oracles) and never
enters the broken lists, yet it still increments `externalLinks` and, when
its `rel` lacks noopener or noreferrer, still increments `missingNoopener`
and joins `linksWithoutNoopener`. -/
theorem social_denylist_excluded_from_liveness (env env2 : ProbeEnv)
    (b : String) (links : List LinkRec) (l : LinkRec) (st : PageState)
    (u : UrlParts)
    (hchk : isCheckableLink l.href = true)
    (hdup : st.checkedUrls.contains l.href = false)
    (hparse : env.parse l.href = some u)
    (hext : u.origin ≠ b)
    (hsoc : isSocialMediaLink env.parse l.href = true)
    (hparse2 : env2.parse = env.parse) :
    (processLink env b st l).externalLinks = st.externalLinks + 1 ∧
    (processLink env b st l).internalLinks = st.internalLinks ∧
    (processLink env b st l).brokenLinks = st.brokenLinks ∧
    (processLink env b st l).brokenInternalLinks = st.brokenInternalLinks ∧
    ((jsIncludes l.rel "noopener" && jsIncludes l.rel "noreferrer") = false →
      (processLink env b st l).missingNoopener = st.missingNoopener + 1 ∧
      (processLink env b st l).linksWithoutNoopener =
        st.linksWithoutNoopener ++ [l.href]) ∧
    ((jsIncludes l.rel "noopener" && jsIncludes l.rel "noreferrer") = true →
      (processLink env b st l).missingNoopener = st.missingNoopener) ∧
    processLink env2 b st l = processLink env b st l ∧
    l.href ∉ (runLinks env b links).brokenLinks ∧
    l.href ∉ (runLinks env b links).brokenInternalLinks := by
  have hfold := foldl_social_not_broken env b l.href u hparse hext hsoc
    links initState (by simp [initState]) (by simp [initState])
  have hparse2a : env2.parse l.href = some u := by
    rw [hparse2]
    exact hparse
  have hsocial2 : isSocialMediaLink env2.parse l.href = true := by
    rw [hparse2]
    exact hsoc
  have hform := processLink_social_form env b st l u hchk hdup hparse hext
    hsoc
  have hform2 := processLink_social_form env2 b st l u hchk hdup hparse2a
    hext hsocial2
  rw [hform, hform2]
  cases hno : (!jsIncludes l.rel "noopener" || !jsIncludes l.rel "noreferrer")
  · have hand : (jsIncludes l.rel "noopener" &&
        jsIncludes l.rel "noreferrer") = true := by
      revert hno
      cases jsIncludes l.rel "noopener" <;>
        cases jsIncludes l.rel "noreferrer" <;> simp
    refine ⟨rfl, rfl, rfl, rfl, ?_, ?_, rfl, hfold.1, hfold.2⟩
    · intro hc
      rw [hand] at hc
      cases hc
    · intro _
      rfl
  · have hand : (jsIncludes l.rel "noopener" &&
        jsIncludes l.rel "noreferrer") = false := by
      revert hno
      cases jsIncludes l.rel "noopener" <;>
        cases jsIncludes l.rel "noreferrer" <;> simp
    refine ⟨rfl, rfl, rfl, rfl, ?_, ?_, rfl, hfold.1, hfold.2⟩
    · intro _
      exact ⟨rfl, rfl⟩
    · intro hc
      rw [hand] at hc
      cases hc

/-- Witness for C6: a facebook link without rel attributes on a page whose
origin differs, with two probe environments sharing the URL oracle. -/
theorem social_denylist_excluded_witness :
    (processLink probeEnvW "https://site.com" initState fbLink).externalLinks =
      initState.externalLinks + 1 ∧
    (processLink probeEnvW "https://site.com" initState fbLink).internalLinks =
      initState.internalLinks ∧
    (processLink probeEnvW "https://site.com" initState fbLink).brokenLinks =
      initState.brokenLinks ∧
    (processLink probeEnvW "https://site.com" initState
        fbLink).brokenInternalLinks = initState.brokenInternalLinks ∧
    ((jsIncludes fbLink.rel "noopener" &&
        jsIncludes fbLink.rel "noreferrer") = false →
      (processLink probeEnvW "https://site.com" initState
          fbLink).missingNoopener = initState.missingNoopener + 1 ∧
      (processLink probeEnvW "https://site.com" initState
          fbLink).linksWithoutNoopener =
        initState.linksWithoutNoopener ++ [fbLink.href]) ∧
    ((jsIncludes fbLink.rel "noopener" &&
        jsIncludes fbLink.rel "noreferrer") = true →
      (processLink probeEnvW "https://site.com" initState
          fbLink).missingNoopener = initState.missingNoopener) ∧
    processLink probeEnvW2 "https://site.com" initState fbLink =
      processLink probeEnvW "https://site.com" initState fbLink ∧
    fbLink.href ∉ (runLinks probeEnvW "https://site.com"
      [fbLink]).brokenLinks ∧
    fbLink.href ∉ (runLinks probeEnvW "https://site.com"
      [fbLink]).brokenInternalLinks :=
  social_denylist_excluded_from_liveness probeEnvW probeEnvW2
    "https://site.com" [fbLink] fbLink initState
    ⟨"https://www.facebook.com", "www.facebook.com"⟩
    (by decide) (by decide) (by decide) (by decide) (by decide) rfl

/-! ### Single-flight admission (C1) -/

theorem startQaAdmit_busy (env : ServerEnv) (req : StartQaReq)
    (reg : Registry) (pn : String)
    (hp : truthyStr req.project_name = some pn)
    (hw : jsOrD req.n8n_webhook_url (some env.n8nWebhookDefault) "" ≠ "")
    (hd : (if env.supabaseConfigured then
        (truthyStr req.staging_url).bind env.stagingDupe else none) = none)
    (hb : env.n8nBusy = none)
    (hreg : reg ≠ []) :
    startQaAdmit env req reg = (.conflictBusy (jobLabelOf reg), reg) := by
  simp only [startQaAdmit, hp, hd, hb]
  rw [if_neg hw, if_pos (List.length_pos.mpr hreg)]

theorem startQaAdmit_empty (env : ServerEnv) (req : StartQaReq) (pn : String)
    (hp : truthyStr req.project_name = some pn)
    (hw : jsOrD req.n8n_webhook_url (some env.n8nWebhookDefault) "" ≠ "")
    (hd : (if env.supabaseConfigured then
        (truthyStr req.staging_url).bind env.stagingDupe else none) = none)
    (hb : env.n8nBusy = none) :
    startQaAdmit env req [] =
      (.accepted pn, [("start-qa:" ++ pn, newStartJob env req pn)]) := by
  simp only [startQaAdmit, hp, hd, hb]
  rw [if_neg hw]
  simp [mapSet]

theorem rerunAdmit_busy (env : ServerEnv) (req : RerunReq)
    (reg : Registry) (pid : String)
    (hp : truthyStr req.project_id = some pid)
    (hw : jsOrD req.n8n_webhook_url (some env.n8nWebhookDefault) "" ≠ "")
    (hb : env.n8nBusy = none)
    (hreg : reg ≠ []) :
    rerunAdmit env req reg = (.conflictBusy (jobLabelOf reg), reg) := by
  simp only [rerunAdmit, hp, hb]
  rw [if_neg hw, if_pos (List.length_pos.mpr hreg)]

theorem rerunAdmit_empty (env : ServerEnv) (req : RerunReq) (pid : String)
    (hp : truthyStr req.project_id = some pid)
    (hw : jsOrD req.n8n_webhook_url (some env.n8nWebhookDefault) "" ≠ "")
    (hb : env.n8nBusy = none) :
    rerunAdmit env req [] =
      (.accepted pid, [("rerun:" ++ pid, newRerunJob env req pid)]) := by
  simp only [rerunAdmit, hp, hb]
  rw [if_neg hw]
  simp [mapSet]

/-- C1: global single-flight admission.  With both requests valid, no
duplicate staging URL, and the external busy check clear: while any job is
in the registry, both `/start-qa` and `/rerun` answer 409 and insert
nothing; and from the empty registry, running the two admissions in either
order (each guard-plus-insert block is synchronous, hence atomic in the
event loop) yields exactly one acceptance and one 409, with the registry
holding exactly one job throughout. -/
theorem single_flight_admission (env : ServerEnv) (req1 : StartQaReq)
    (req2 : RerunReq) (reg : Registry)
    (hp1 : ∃ pn, truthyStr req1.project_name = some pn)
    (hw1 : jsOrD req1.n8n_webhook_url (some env.n8nWebhookDefault) "" ≠ "")
    (hd1 : (if env.supabaseConfigured then
        (truthyStr req1.staging_url).bind env.stagingDupe else none) = none)
    (hp2 : ∃ pid, truthyStr req2.project_id = some pid)
    (hw2 : jsOrD req2.n8n_webhook_url (some env.n8nWebhookDefault) "" ≠ "")
    (hb : env.n8nBusy = none) :
    (reg ≠ [] →
      is409 (startQaAdmit env req1 reg).1 = true ∧
      (startQaAdmit env req1 reg).2 = reg ∧
      is409 (rerunAdmit env req2 reg).1 = true ∧
      (rerunAdmit env req2 reg).2 = reg) ∧
    ((startQaAdmit env req1 []).2.length = 1 ∧
     (∃ n, (startQaAdmit env req1 []).1 = AdmitResp.accepted n) ∧
     is409 (rerunAdmit env req2 (startQaAdmit env req1 []).2).1 = true ∧
     (rerunAdmit env req2 (startQaAdmit env req1 []).2).2 =
       (startQaAdmit env req1 []).2) ∧
    ((rerunAdmit env req2 []).2.length = 1 ∧
     (∃ n, (rerunAdmit env req2 []).1 = AdmitResp.accepted n) ∧
     is409 (startQaAdmit env req1 (rerunAdmit env req2 []).2).1 = true ∧
     (startQaAdmit env req1 (rerunAdmit env req2 []).2).2 =
       (rerunAdmit env req2 []).2) := by
  obtain ⟨pn, hpn⟩ := hp1
  obtain ⟨pid, hpid⟩ := hp2
  have hSe := startQaAdmit_empty env req1 pn hpn hw1 hd1 hb
  have hRe := rerunAdmit_empty env req2 pid hpid hw2 hb
  refine ⟨?_, ?_, ?_⟩
  · intro hreg
    rw [startQaAdmit_busy env req1 reg pn hpn hw1 hd1 hb hreg,
      rerunAdmit_busy env req2 reg pid hpid hw2 hb hreg]
    exact ⟨rfl, rfl, rfl, rfl⟩
  · rw [hSe]
    rw [rerunAdmit_busy env req2 _ pid hpid hw2 hb (by simp)]
    exact ⟨rfl, ⟨pn, rfl⟩, rfl, rfl⟩
  · rw [hRe]
    rw [startQaAdmit_busy env req1 _ pn hpn hw1 hd1 hb (by simp)]
    exact ⟨rfl, ⟨pid, rfl⟩, rfl, rfl⟩

/-- Witness for C1 with concrete requests and a concrete occupied
registry: the occupied registry rejects both endpoints without insertion,
and each empty-registry race yields one acceptance and one 409 with a
single job present. -/
theorem single_flight_admission_witness :
    is409 (startQaAdmit envW req1W regW).1 = true ∧
    (startQaAdmit envW req1W regW).2 = regW ∧
    is409 (rerunAdmit envW req2W regW).1 = true ∧
    (rerunAdmit envW req2W regW).2 = regW ∧
    (startQaAdmit envW req1W []).2.length = 1 ∧
    is409 (rerunAdmit envW req2W (startQaAdmit envW req1W []).2).1 = true ∧
    (rerunAdmit envW req2W (startQaAdmit envW req1W []).2).2 =
      (startQaAdmit envW req1W []).2 ∧
    (rerunAdmit envW req2W []).2.length = 1 ∧
    is409 (startQaAdmit envW req1W (rerunAdmit envW req2W []).2).1 = true ∧
    (startQaAdmit envW req1W (rerunAdmit envW req2W []).2).2 =
      (rerunAdmit envW req2W []).2 :=
  have h := single_flight_admission envW req1W req2W regW
    ⟨"Acme", by decide⟩ (by decide) (by decide)
    ⟨"id-42", by decide⟩ (by decide) rfl
  have hocc := h.1 (by decide)
  ⟨hocc.1, hocc.2.1, hocc.2.2.1, hocc.2.2.2, h.2.1.1, h.2.1.2.2.1,
   h.2.1.2.2.2, h.2.2.1, h.2.2.2.2.1, h.2.2.2.2.2⟩

end PlaywrightQa
